import Mathlib

/-!
Verification development for the MSS top-view map canvas (src/msui/mpl_map.py).

The development shallowly embeds the parts of MapCanvas that the specification
talks about: the trajectory-item synchronizer update_trajectory_items (property
inheritance along the tree, the iterative stack traversal and the per-item
drawing actions), the geodesic discretizers gcpoints2 and gcpoints_path, the
automatic graticule layout in _draw_auto_graticule, and the per-layer
visibility setters.  External collaborators (Basemap projection maths, pyproj
geodesic solver, the matplotlib drawing surface) are taken as opaque function
parameters or as allocation of opaque artifact handles.  Machine floats are
modelled by rationals.
-/

namespace MSS

/-- Kinds of items of the trajectory item tree.  The item class hierarchy lives
in trajectory_item_tree.py, which is outside this module; following the data
model of the specification, Root, FlightTrack and Trajectory items are
LagrantoMapItems that take part in the map traversal, Variable items are data
leaves that are never plotted, and Other stands for anything else. -/
inductive Kind where
  | Root
  | FlightTrack
  | Trajectory
  | Variable
  | Other
  deriving DecidableEq, Repr

/-- Modelled from the spec: which item kinds count as LagrantoMapItem instances
for the isinstance filter of the downward traversal (trajectory_item_tree.py is
not part of the sources); per the spec, Variable nodes are data leaves that are
never pushed, and Other is not a map item at all. -/
def isLagrantoMapItem : Kind → Bool
  | Kind.Variable => false
  | Kind.Other => false
  | _ => true

/-- One tree item as seen by MapCanvas.update_trajectory_items for one fixed
map-view identifier.  visible models item.isVisible(identifier); colour,
linestyle, linewidth and timeMarkerInterval model
item.getGxElementProperty("general", name), where none stands for the Python
None (inherit from an ancestor); hasLineInstance and hasMarkerInstance tell
whether a lineplot or timemarker graphics instance for this view is currently
stored on the item; timeMarkerIndexes models item.getTimeMarkerIndexes()
(none = Python None = draw no markers).  A stored property value is assumed
truthy in the Python sense (a non-empty colour, a nonzero width), so some v
models a set value and none an unset one. -/
structure ItemData where
  kind : Kind
  visible : Bool
  colour : Option Nat
  linestyle : Option Nat
  linewidth : Option Nat
  timeMarkerInterval : Option Nat
  hasLineInstance : Bool
  hasMarkerInstance : Bool
  timeMarkerIndexes : Option (List Nat)
  deriving DecidableEq, Repr

/-- The property dictionary threaded through the traversal
(parentProperties / itemProperties in update_trajectory_items). -/
structure GxProps where
  visible : Bool
  colour : Option Nat
  linestyle : Option Nat
  linewidth : Option Nat
  timeMarkerInterval : Option Nat
  deriving DecidableEq, Repr

/-- The trajectory item tree: an item together with its childItems. -/
inductive TItem where
  | node (data : ItemData) (children : List TItem)

/-- The item stored at the root of a subtree. -/
def TItem.dataOf : TItem → ItemData
  | TItem.node d _ => d

/-- The kind of the item stored at the root of a subtree. -/
def TItem.kindOf : TItem → Kind
  | TItem.node d _ => d.kind

mutual

/-- Number of items in a subtree (termination measure for the stack loop). -/
def TItem.size : TItem → Nat
  | TItem.node _ cs => 1 + TItem.sizeList cs

/-- Total number of items in a list of subtrees. -/
def TItem.sizeList : List TItem → Nat
  | [] => 0
  | t :: ts => TItem.size t + TItem.sizeList ts

end

/-- Default property set of update_trajectory_items: the item is visible and
inherits no other properties. -/
def initProps : GxProps :=
  { visible := true, colour := none, linestyle := none, linewidth := none,
    timeMarkerInterval := none }

/-- The Python expression (prop if prop else old): the new value wins whenever
it is set, otherwise the old value is kept. -/
def pickProp (prop old : Option Nat) : Option Nat :=
  match prop with
  | some v => some v
  | none => old

/-- One step of the upward loop of update_trajectory_items: visibility is
and-ed with the ancestor flag, and each general property is overwritten by the
ancestor value whenever that value is set (so, walking upward, the value of the
highest level on which the property is set survives). -/
def upwardStep (q : GxProps) (parent : ItemData) : GxProps :=
  { visible := parent.visible && q.visible
    colour := pickProp parent.colour q.colour
    linestyle := pickProp parent.linestyle q.linestyle
    linewidth := pickProp parent.linewidth q.linewidth
    timeMarkerInterval := pickProp parent.timeMarkerInterval q.timeMarkerInterval }

/-- The upward pass of update_trajectory_items: walk the ancestor chain
(direct parent first, root last) starting from the default property set. -/
def upwardPass (ancestors : List ItemData) (q : GxProps) : GxProps :=
  ancestors.foldl upwardStep q

/-- The per-item property resolution of the downward pass: the item is visible
iff it is visible itself and its parent properties say visible; each general
property takes the inherited value when that is set and only otherwise the
item's own value. -/
def resolveItem (q : GxProps) (d : ItemData) : GxProps :=
  { visible := d.visible && q.visible
    colour := pickProp q.colour d.colour
    linestyle := pickProp q.linestyle d.linestyle
    linewidth := pickProp q.linewidth d.linewidth
    timeMarkerInterval := pickProp q.timeMarkerInterval d.timeMarkerInterval }

/-- Termination measure of the stack loop: total number of items on the stack. -/
def stackMeasure : List (TItem × GxProps) → Nat
  | [] => 0
  | (t, _) :: rest => TItem.size t + stackMeasure rest

theorem stackMeasure_append (a b : List (TItem × GxProps)) :
    stackMeasure (a ++ b) = stackMeasure a + stackMeasure b := by
  induction a with
  | nil => simp [stackMeasure]
  | cons x xs ih =>
      obtain ⟨t, q⟩ := x
      simp [stackMeasure, ih, Nat.add_assoc]

theorem stackMeasure_map (cs : List TItem) (p : GxProps) :
    stackMeasure (cs.map fun c => (c, p)) = TItem.sizeList cs := by
  induction cs with
  | nil => simp [stackMeasure, TItem.sizeList]
  | cons c cs ih => simp [stackMeasure, TItem.sizeList, ih]

theorem sizeList_append (a b : List TItem) :
    TItem.sizeList (a ++ b) = TItem.sizeList a + TItem.sizeList b := by
  induction a with
  | nil => simp [TItem.sizeList]
  | cons t ts ih => simp [TItem.sizeList, ih, Nat.add_assoc]

theorem sizeList_reverse (cs : List TItem) :
    TItem.sizeList cs.reverse = TItem.sizeList cs := by
  induction cs with
  | nil => rfl
  | cons t ts ih =>
      simp [List.reverse_cons, sizeList_append, TItem.sizeList, ih, Nat.add_comm]

theorem sizeList_filter_le (f : TItem → Bool) (cs : List TItem) :
    TItem.sizeList (cs.filter f) ≤ TItem.sizeList cs := by
  induction cs with
  | nil => simp [TItem.sizeList]
  | cons t ts ih =>
      by_cases h : f t
      · simpa [List.filter_cons, h, TItem.sizeList] using
          Nat.add_le_add_left ih (TItem.size t)
      · simp only [List.filter_cons, h, Bool.false_eq_true, if_false, TItem.sizeList]
        exact le_trans ih (Nat.le_add_left _ _)

/-- The iterative downward traversal of update_trajectory_items.  The stack
holds pairs of an item and the parentProperties it was pushed with; the head of
the list is the top of the stack (Python pops from the end of itemStack, hence
the reverse when the filtered childItems are pushed).  Each popped item is
recorded together with its resolved itemProperties; children that are not
LagrantoMapItems are not pushed. -/
def traverseLoop : List (TItem × GxProps) → List (ItemData × GxProps)
  | [] => []
  | (TItem.node d cs, q) :: rest =>
      let p := resolveItem q d
      (d, p) ::
        traverseLoop
          (((cs.filter fun c => isLagrantoMapItem c.kindOf).reverse.map
              fun c => (c, p)) ++ rest)
termination_by s => stackMeasure s
decreasing_by
  simp only [stackMeasure_append, stackMeasure_map, stackMeasure, TItem.size,
    sizeList_reverse]
  have h := sizeList_filter_le (fun c => isLagrantoMapItem c.kindOf) cs
  omega

/-- VisitPath t p holds when p is the chain of items from the root of t down to
some item that the downward traversal can reach (every step descends to a child
that passes the LagrantoMapItem filter).  The last entry of p is the reached
item itself. -/
inductive VisitPath : TItem → List ItemData → Prop
  | here (d : ItemData) (cs : List TItem) : VisitPath (TItem.node d cs) [d]
  | child (d : ItemData) (cs : List TItem) (c : TItem) (p : List ItemData) :
      c ∈ cs → isLagrantoMapItem c.kindOf = true → VisitPath c p →
      VisitPath (TItem.node d cs) (d :: p)

theorem VisitPath.ne_nil {t : TItem} {p : List ItemData} (h : VisitPath t p) :
    p ≠ [] := by
  cases h <;> simp

/-- Every entry that the stack traversal emits comes from some stack element
(t, q) and is the item at the end of a reachable chain p in t, carrying exactly
the properties obtained by folding the per-item resolution along p starting
from q. -/
theorem mem_traverseLoop {stack : List (TItem × GxProps)}
    {e : ItemData × GxProps} (he : e ∈ traverseLoop stack) :
    ∃ t q, (t, q) ∈ stack ∧
      ∃ p, VisitPath t p ∧ p.getLast? = some e.1 ∧
        e.2 = p.foldl resolveItem q := by
  induction stack using traverseLoop.induct with
  | case1 => simp [traverseLoop] at he
  | case2 d cs q rest p ih =>
      rw [traverseLoop] at he
      rcases List.mem_cons.mp he with h | h
      · refine ⟨TItem.node d cs, q, List.mem_cons_self _ _, [d],
          VisitPath.here d cs, ?_, ?_⟩
        · simp [h]
        · simp [h, List.foldl]
      · obtain ⟨t', q', hmem, p', hpath, hlast, hfold⟩ := ih h
        rcases List.mem_append.mp hmem with hmem | hmem
        · obtain ⟨c, hc, hcq⟩ := List.mem_map.mp hmem
          have hct : c = t' := congrArg Prod.fst hcq
          have hpq : p = q' := congrArg Prod.snd hcq
          subst hct
          subst hpq
          have hc' : c ∈ cs.filter fun c => isLagrantoMapItem c.kindOf :=
            List.mem_reverse.mp hc
          have hcs : c ∈ cs := (List.mem_filter.mp hc').1
          have hlag : isLagrantoMapItem c.kindOf = true :=
            (List.mem_filter.mp hc').2
          refine ⟨TItem.node d cs, q, List.mem_cons_self _ _, d :: p',
            VisitPath.child d cs c p' hcs hlag hpath, ?_, ?_⟩
          · cases p' with
            | nil => exact absurd rfl hpath.ne_nil
            | cons x xs => simpa using hlast
          · simpa [List.foldl] using hfold
        · exact ⟨t', q', List.mem_cons_of_mem _ hmem, p', hpath, hlast, hfold⟩

/-- First set value in a list of optional values, none when no value is set. -/
def firstSome : List (Option Nat) → Option Nat
  | [] => none
  | some v :: _ => some v
  | none :: l => firstSome l

theorem firstSome_cons (a : Option Nat) (l : List (Option Nat)) :
    firstSome (a :: l) = pickProp a (firstSome l) := by
  cases a <;> simp [firstSome, pickProp]

theorem pickProp_none (a : Option Nat) : pickProp a none = a := by
  cases a <;> simp [pickProp]

theorem firstSome_append (a b : List (Option Nat)) :
    firstSome (a ++ b) = pickProp (firstSome a) (firstSome b) := by
  induction a with
  | nil => simp [firstSome, pickProp]
  | cons x xs ih =>
      cases x with
      | some v => simp [firstSome, pickProp]
      | none => simp [firstSome, ih]

theorem foldl_pickProp (l : List (Option Nat)) (a : Option Nat) :
    l.foldl pickProp a = firstSome (a :: l) := by
  induction l generalizing a with
  | nil => cases a <;> simp [firstSome]
  | cons x xs ih =>
      cases a with
      | some v => simp [List.foldl_cons, pickProp, firstSome, ih]
      | none => simp [List.foldl_cons, pickProp, firstSome, ih, firstSome_cons]

theorem foldl_pickFlip (l : List (Option Nat)) (a : Option Nat) :
    l.foldl (fun acc x => pickProp x acc) a = firstSome (l.reverse ++ [a]) := by
  induction l generalizing a with
  | nil => cases a <;> simp [firstSome]
  | cons x xs ih =>
      rw [List.foldl_cons, ih, List.reverse_cons, List.append_assoc,
        firstSome_append, firstSome_append]
      cases x <;> simp [firstSome, pickProp]

/-- Field-by-field description of folding the downward per-item resolution
along a chain of items. -/
theorem foldl_resolveItem_fields (p : List ItemData) (q : GxProps) :
    (p.foldl resolveItem q).visible = (q.visible && (p.all fun d => d.visible))
    ∧ (p.foldl resolveItem q).colour
        = (p.map fun d => d.colour).foldl pickProp q.colour
    ∧ (p.foldl resolveItem q).linestyle
        = (p.map fun d => d.linestyle).foldl pickProp q.linestyle
    ∧ (p.foldl resolveItem q).linewidth
        = (p.map fun d => d.linewidth).foldl pickProp q.linewidth
    ∧ (p.foldl resolveItem q).timeMarkerInterval
        = (p.map fun d => d.timeMarkerInterval).foldl pickProp
            q.timeMarkerInterval := by
  induction p generalizing q with
  | nil => simp
  | cons d ds ih =>
      obtain ⟨h1, h2, h3, h4, h5⟩ := ih (resolveItem q d)
      refine ⟨?_, ?_, ?_, ?_, ?_⟩
      · rw [List.foldl_cons, h1]
        simp only [resolveItem, List.all_cons]
        cases q.visible <;> cases d.visible <;> simp
      · rw [List.foldl_cons, h2, List.map_cons, List.foldl_cons]
        rfl
      · rw [List.foldl_cons, h3, List.map_cons, List.foldl_cons]
        rfl
      · rw [List.foldl_cons, h4, List.map_cons, List.foldl_cons]
        rfl
      · rw [List.foldl_cons, h5, List.map_cons, List.foldl_cons]
        rfl

/-- Field-by-field description of the upward pass along the ancestor chain. -/
theorem upwardPass_fields (l : List ItemData) (q : GxProps) :
    (upwardPass l q).visible = (q.visible && (l.all fun d => d.visible))
    ∧ (upwardPass l q).colour
        = (l.map fun d => d.colour).foldl (fun acc x => pickProp x acc) q.colour
    ∧ (upwardPass l q).linestyle
        = (l.map fun d => d.linestyle).foldl (fun acc x => pickProp x acc)
            q.linestyle
    ∧ (upwardPass l q).linewidth
        = (l.map fun d => d.linewidth).foldl (fun acc x => pickProp x acc)
            q.linewidth
    ∧ (upwardPass l q).timeMarkerInterval
        = (l.map fun d => d.timeMarkerInterval).foldl
            (fun acc x => pickProp x acc) q.timeMarkerInterval := by
  induction l generalizing q with
  | nil => simp [upwardPass]
  | cons d ds ih =>
      obtain ⟨h1, h2, h3, h4, h5⟩ := ih (upwardStep q d)
      refine ⟨?_, ?_, ?_, ?_, ?_⟩
      · rw [upwardPass, List.foldl_cons]
        rw [upwardPass] at h1
        rw [h1]
        simp only [upwardStep, List.all_cons]
        cases q.visible <;> cases d.visible <;> simp
      · rw [upwardPass, List.foldl_cons]
        rw [upwardPass] at h2
        rw [h2, List.map_cons, List.foldl_cons]
        rfl
      · rw [upwardPass, List.foldl_cons]
        rw [upwardPass] at h3
        rw [h3, List.map_cons, List.foldl_cons]
        rfl
      · rw [upwardPass, List.foldl_cons]
        rw [upwardPass] at h4
        rw [h4, List.map_cons, List.foldl_cons]
        rfl
      · rw [upwardPass, List.foldl_cons]
        rw [upwardPass] at h5
        rw [h5, List.map_cons, List.foldl_cons]
        rfl

/-- Main characterization of the synchronizer traversal started at an item with
ancestor chain ancestors (direct parent first): every emitted entry sits at the
end of a reachable chain p inside the start subtree, its visibility is the
conjunction of all flags along ancestors and p, and each general property is
the first set value along the root-to-item chain (topmost ancestor first). -/
theorem traverse_resolved (t : TItem) (ancestors : List ItemData)
    (e : ItemData × GxProps)
    (he : e ∈ traverseLoop [(t, upwardPass ancestors initProps)]) :
    ∃ p, VisitPath t p ∧ p.getLast? = some e.1
      ∧ e.2.visible
          = ((ancestors.all fun d => d.visible) && (p.all fun d => d.visible))
      ∧ e.2.colour = firstSome ((ancestors.reverse ++ p).map fun d => d.colour)
      ∧ e.2.linestyle
          = firstSome ((ancestors.reverse ++ p).map fun d => d.linestyle)
      ∧ e.2.linewidth
          = firstSome ((ancestors.reverse ++ p).map fun d => d.linewidth)
      ∧ e.2.timeMarkerInterval
          = firstSome ((ancestors.reverse ++ p).map
              fun d => d.timeMarkerInterval) := by
  obtain ⟨t', q', hmem, p, hpath, hlast, hfold⟩ := mem_traverseLoop he
  have ht : t' = t ∧ q' = upwardPass ancestors initProps := by
    simpa using hmem
  obtain ⟨rfl, rfl⟩ := ht
  refine ⟨p, hpath, hlast, ?_, ?_, ?_, ?_, ?_⟩
  · rw [hfold, (foldl_resolveItem_fields p _).1, (upwardPass_fields _ _).1]
    simp [initProps]
  · rw [hfold, (foldl_resolveItem_fields p _).2.1, foldl_pickProp,
      firstSome_cons, (upwardPass_fields _ _).2.1, foldl_pickFlip]
    simp only [initProps, firstSome_append, List.map_append, List.map_reverse]
    simp [firstSome, pickProp_none]
  · rw [hfold, (foldl_resolveItem_fields p _).2.2.1, foldl_pickProp,
      firstSome_cons, (upwardPass_fields _ _).2.2.1, foldl_pickFlip]
    simp only [initProps, firstSome_append, List.map_append, List.map_reverse]
    simp [firstSome, pickProp_none]
  · rw [hfold, (foldl_resolveItem_fields p _).2.2.2.1, foldl_pickProp,
      firstSome_cons, (upwardPass_fields _ _).2.2.2.1, foldl_pickFlip]
    simp only [initProps, firstSome_append, List.map_append, List.map_reverse]
    simp [firstSome, pickProp_none]
  · rw [hfold, (foldl_resolveItem_fields p _).2.2.2.2, foldl_pickProp,
      firstSome_cons, (upwardPass_fields _ _).2.2.2.2, foldl_pickFlip]
    simp only [initProps, firstSome_append, List.map_append, List.map_reverse]
    simp [firstSome, pickProp_none]

/-- The update modes of update_trajectory_items (Python strings). -/
inductive Mode where
  | DRAW_EVERYTHING
  | FLIGHT_TRACK_ADDED
  | TRAJECTORY_DIR_ADDED
  | MARKER_CHANGE
  | GXPROPERTY_CHANGE
  | VISIBILITY_CHANGE
  deriving DecidableEq, Repr

/-- The modes in which update_trajectory_items recomputes geometry
(the second branch of its mode dispatch). -/
def geometryModes : List Mode :=
  [Mode.FLIGHT_TRACK_ADDED, Mode.TRAJECTORY_DIR_ADDED, Mode.MARKER_CHANGE,
   Mode.DRAW_EVERYTHING]

/-- Operations issued against the matplotlib drawing surface.  createLine
carries the resolved colour, visibility, linestyle and linewidth passed to
self.plot; createMarkers carries the marker index positions and the resolved
colour and visibility passed to self.scatter; updateLine / updateMarkers model
the plt.setp property pushes; canvasDraw models ax.figure.canvas.draw(). -/
inductive Effect where
  | removeLine
  | createLine (colour : Option Nat) (visible : Bool)
      (linestyle linewidth : Option Nat)
  | removeMarkers
  | createMarkers (indexes : List Nat) (colour : Option Nat) (visible : Bool)
  | updateLine (visible : Bool) (colour linestyle linewidth : Option Nat)
  | updateMarkers (visible : Bool) (colour : Option Nat)
  | canvasDraw
  deriving DecidableEq, Repr

/-- The per-item body of the traversal loop of update_trajectory_items
(everything after the children have been pushed), as the list of drawing
surface operations it performs for the item d with resolved properties p.
Items that are neither flight tracks nor trajectories are skipped.  In
GXPROPERTY_CHANGE / VISIBILITY_CHANGE mode the existing lineplot and timemarker
instances get their properties set.  In the geometry modes the old lineplot
instances are removed first (a missing instance raises KeyError / ValueError,
which is caught and ignored) and a new line is plotted, but only when the mode
is not MARKER_CHANGE; afterwards, in all geometry modes, the old timemarker
instance is removed (again tolerating absence) and, when
item.getTimeMarkerIndexes() is not None, a new scatter instance is created at
those indexes.  The projection of the item's lon/lat data to map coordinates
and the setGxElementProperty writes that store the new instance handles on the
item are pure bookkeeping and are not modelled as drawing operations. -/
def processItem (mode : Mode) (d : ItemData) (p : GxProps) : List Effect :=
  if ¬(d.kind = Kind.FlightTrack ∨ d.kind = Kind.Trajectory) then []
  else if mode = Mode.GXPROPERTY_CHANGE ∨ mode = Mode.VISIBILITY_CHANGE then
    (if d.hasLineInstance then
        [Effect.updateLine p.visible p.colour p.linestyle p.linewidth]
      else [])
    ++ (if d.hasMarkerInstance then
          [Effect.updateMarkers p.visible p.colour]
        else [])
  else if mode = Mode.FLIGHT_TRACK_ADDED ∨ mode = Mode.TRAJECTORY_DIR_ADDED
      ∨ mode = Mode.MARKER_CHANGE ∨ mode = Mode.DRAW_EVERYTHING then
    (if mode ≠ Mode.MARKER_CHANGE then
        (if d.hasLineInstance then [Effect.removeLine] else [])
        ++ [Effect.createLine p.colour p.visible p.linestyle p.linewidth]
      else [])
    ++ (if d.hasMarkerInstance then [Effect.removeMarkers] else [])
    ++ (match d.timeMarkerIndexes with
        | some idx => [Effect.createMarkers idx p.colour p.visible]
        | none => [])
  else []

/-- MapCanvas.update_trajectory_items.  The first argument models
self.traj_item_tree (none when no tree is attached); start models the item
argument: none means start at the tree root, some (ancestors, subtree) gives an
explicit start item as its subtree together with its chain of ancestors up to
the root (direct parent first), which the Python code reaches through
item.parent() links.  When the tree reference is None the method returns
immediately; a start item that is not a LagrantoMapItem raises TypeError
(modelled as the error case); otherwise the upward pass seeds the inherited
properties, the stack traversal visits the subtree, each visited item
contributes its drawing operations, and a single canvas draw is issued at the
end. -/
def update_trajectory_items (tree : Option TItem)
    (start : Option (List ItemData × TItem)) (mode : Mode) :
    Except Unit (List Effect) :=
  match tree with
  | none => Except.ok []
  | some root =>
      match start with
      | none =>
          let visited := traverseLoop [(root, upwardPass [] initProps)]
          Except.ok
            ((visited.flatMap fun e => processItem mode e.1 e.2)
              ++ [Effect.canvasDraw])
      | some (ancestors, startTree) =>
          if isLagrantoMapItem startTree.kindOf then
            let visited :=
              traverseLoop [(startTree, upwardPass ancestors initProps)]
            Except.ok
              ((visited.flatMap fun e => processItem mode e.1 e.2)
                ++ [Effect.canvasDraw])
          else Except.error ()

/-- The fixed candidate spacing table of _draw_auto_graticule, in degrees. -/
def spacingValues : List ℚ :=
  [(5 : ℚ)/100, 1/10, 25/100, 5/10, 1, 2, 5, 10, 20, 30, 40]

/-- The spacing selection of _draw_auto_graticule for one axis: the first entry
of the candidate table that is larger than delta / 11 (Python takes element [0]
of the filtered list; none models the IndexError raised when the filter leaves
nothing). -/
def selectSpacing (delta : ℚ) : Option ℚ :=
  (spacingValues.filter fun i => delta / 11 < i).head?

/-- For a sorted candidate list, the head of the filtered list is a minimal
element satisfying the filter. -/
theorem head_filter_min {l : List ℚ} {p : ℚ → Bool} {s : ℚ}
    (hl : l.Pairwise (· ≤ ·)) (h : (l.filter p).head? = some s) :
    s ∈ l ∧ p s = true ∧ ∀ r ∈ l, p r = true → s ≤ r := by
  induction l with
  | nil => simp [List.filter] at h
  | cons a t ih =>
      obtain ⟨ha, ht⟩ := List.pairwise_cons.mp hl
      by_cases hpa : p a
      · rw [List.filter_cons_of_pos hpa] at h
        simp only [List.head?] at h
        obtain rfl : a = s := by simpa using h
        refine ⟨List.mem_cons_self _ _, hpa, ?_⟩
        intro r hr _
        rcases List.mem_cons.mp hr with rfl | hr
        · exact le_refl _
        · exact ha r hr
      · rw [List.filter_cons_of_neg hpa] at h
        obtain ⟨hmem, hps, hmin⟩ := ih ht h
        refine ⟨List.mem_cons_of_mem _ hmem, hps, ?_⟩
        intro r hr hpr
        rcases List.mem_cons.mp hr with rfl | hr
        · exact absurd hpr hpa
        · exact hmin r hr hpr

/-- A flight-track item with no set properties, visible, no stored instances. -/
def plainItem : ItemData :=
  { kind := Kind.FlightTrack, visible := true, colour := none,
    linestyle := none, linewidth := none, timeMarkerInterval := none,
    hasLineInstance := false, hasMarkerInstance := false,
    timeMarkerIndexes := none }

/-- Root item with its colour set to value 1. -/
def c1Root : ItemData := { plainItem with kind := Kind.Root, colour := some 1 }

/-- Child flight track with its own colour set to value 2. -/
def c1Child : ItemData := { plainItem with colour := some 2 }

/-- Two-item tree: a root with colour 1 and one child with colour 2. -/
def c1Tree : TItem := TItem.node c1Root [TItem.node c1Child []]

/-- The properties the synchronizer resolves for c1Child inside c1Tree. -/
def c1ChildProps : GxProps :=
  { visible := true, colour := some 1, linestyle := none, linewidth := none,
    timeMarkerInterval := none }

/-- Formalisation of the claim C1 sentence (the words of the spec, kept for
comparison with the code): the effective value of a property is the nearest
set value walking from the node up to the root; upChain lists the property
values of the node first, then of its ancestors in order up to the root. -/
def specNearestValue (upChain : List (Option Nat)) : Option Nat :=
  firstSome upChain

/-- Claim C1 as stated is false on the code: in a tree whose root sets
colour 1 and whose child sets colour 2, the synchronizer resolves the child's
colour to 1 (the value of the highest level on which the colour is set), while
the nearest set value walking from the child up to the root is the child's own
colour 2. -/
theorem C1_counterexample :
    ((traverseLoop [(c1Tree, upwardPass [] initProps)]).map
        fun e => e.2.colour) = [some 1, some 1]
    ∧ specNearestValue [c1Child.colour, c1Root.colour] = some 2
    ∧ ¬ (some 1 : Option Nat) = some 2 := by
  refine ⟨?_, by simp [specNearestValue, c1Child, c1Root, plainItem, firstSome],
    by simp⟩
  simp [traverseLoop, c1Tree, c1Root, c1Child, plainItem, upwardPass, initProps,
    resolveItem, isLagrantoMapItem, TItem.kindOf, pickProp]

/-- Claim C1 (amended): for every item the synchronizer visits, the effective
value of each of colour, lineStyle, lineWidth and timeMarkerInterval equals the
FIRST set value found walking from the ROOT down to the item: the value set on
the highest tree level wins, the item's own value applies only when no ancestor
sets the property, and when nobody on the path sets it the resolved value stays
none, i.e. the externally supplied default applies.  Here ancestors is the
chain from the start item's parent up to the root and p is the chain from the
start item down to the visited item, so ancestors.reverse ++ p is the full
root-to-item chain. -/
theorem C1_effective_property_rootmost (t : TItem) (ancestors : List ItemData)
    (e : ItemData × GxProps)
    (he : e ∈ traverseLoop [(t, upwardPass ancestors initProps)]) :
    ∃ p, VisitPath t p ∧ p.getLast? = some e.1
      ∧ e.2.colour
          = firstSome ((ancestors.reverse ++ p).map fun d => d.colour)
      ∧ e.2.linestyle
          = firstSome ((ancestors.reverse ++ p).map fun d => d.linestyle)
      ∧ e.2.linewidth
          = firstSome ((ancestors.reverse ++ p).map fun d => d.linewidth)
      ∧ e.2.timeMarkerInterval
          = firstSome ((ancestors.reverse ++ p).map
              fun d => d.timeMarkerInterval) := by
  obtain ⟨p, h1, h2, _, h4, h5, h6, h7⟩ := traverse_resolved t ancestors e he
  exact ⟨p, h1, h2, h4, h5, h6, h7⟩

/-- Witness for the amended claim C1 at the concrete tree c1Tree. -/
theorem C1_effective_property_rootmost_witness :
    ∃ p, VisitPath c1Tree p ∧ p.getLast? = some c1Child
      ∧ c1ChildProps.colour
          = firstSome ((([] : List ItemData).reverse ++ p).map fun d => d.colour)
      ∧ c1ChildProps.linestyle
          = firstSome ((([] : List ItemData).reverse ++ p).map
              fun d => d.linestyle)
      ∧ c1ChildProps.linewidth
          = firstSome ((([] : List ItemData).reverse ++ p).map
              fun d => d.linewidth)
      ∧ c1ChildProps.timeMarkerInterval
          = firstSome ((([] : List ItemData).reverse ++ p).map
              fun d => d.timeMarkerInterval) :=
  C1_effective_property_rootmost c1Tree [] (c1Child, c1ChildProps)
    (by simp [traverseLoop, c1Tree, c1Root, c1Child, c1ChildProps, plainItem,
      upwardPass, initProps, resolveItem, isLagrantoMapItem, TItem.kindOf,
      pickProp])

/-- An invisible ancestor item. -/
def c2Anc : ItemData := { plainItem with visible := false }

/-- A one-item tree consisting of a single plain flight track. -/
def soloTree : TItem := TItem.node plainItem []

/-- The properties resolved for plainItem under the invisible ancestor. -/
def c2Props : GxProps :=
  { visible := false, colour := none, linestyle := none, linewidth := none,
    timeMarkerInterval := none }

/-- Claim C2 (confirmed): for every item the synchronizer visits, the
effective visibility it computes equals the conjunction of the item's own
visibility flag and the flags of all of its ancestors for the view: the upward
pass contributes the conjunction over ancestors (the chain from the start
item's parent to the root) and the downward pass contributes the conjunction
over p, the chain from the start item down to the visited item, which ends in
the item itself. -/
theorem C2_effective_visibility (t : TItem) (ancestors : List ItemData)
    (e : ItemData × GxProps)
    (he : e ∈ traverseLoop [(t, upwardPass ancestors initProps)]) :
    ∃ p, VisitPath t p ∧ p.getLast? = some e.1
      ∧ e.2.visible
          = ((ancestors.all fun d => d.visible)
              && (p.all fun d => d.visible)) := by
  obtain ⟨p, h1, h2, h3, _⟩ := traverse_resolved t ancestors e he
  exact ⟨p, h1, h2, h3⟩

/-- Witness for claim C2: a visible item under an invisible ancestor resolves
to invisible. -/
theorem C2_effective_visibility_witness :
    ∃ p, VisitPath soloTree p ∧ p.getLast? = some plainItem
      ∧ c2Props.visible
          = (([c2Anc].all fun d => d.visible)
              && (p.all fun d => d.visible)) :=
  C2_effective_visibility soloTree [c2Anc] (plainItem, c2Props)
    (by simp [traverseLoop, soloTree, c2Anc, c2Props, plainItem, upwardPass,
      upwardStep, initProps, resolveItem, isLagrantoMapItem, TItem.kindOf,
      pickProp])

/-- A flight track with stored line and marker instances and marker indexes. -/
def c3Item : ItemData :=
  { plainItem with
    hasLineInstance := true
    hasMarkerInstance := true
    timeMarkerIndexes := some [0] }

/-- Resolved properties used in the C3 counterexample. -/
def c3Props : GxProps := { initProps with colour := some 5 }

/-- Claim C3 as stated is false on the code: in MARKER_CHANGE mode a visited
flight track with an existing line artifact gets NO line removal and NO
replacement line, while its time markers ARE removed and recreated even though
the mode is MarkerChange; the code guards the line replacement, not the marker
replacement, by the mode not being MARKER_CHANGE. -/
theorem C3_counterexample :
    processItem Mode.MARKER_CHANGE c3Item c3Props
      = [Effect.removeMarkers, Effect.createMarkers [0] (some 5) true]
    ∧ Effect.createLine (some 5) true none none
        ∉ processItem Mode.MARKER_CHANGE c3Item c3Props
    ∧ Effect.removeLine ∉ processItem Mode.MARKER_CHANGE c3Item c3Props := by
  decide

/-- Claim C3 (amended): in the geometry-recomputing modes (ItemAdded as
FLIGHT_TRACK_ADDED or TRAJECTORY_DIR_ADDED, MARKER_CHANGE, DRAW_EVERYTHING),
every visited FlightTrack / Trajectory item has its time-marker artifact
removed (when one exists; absence is tolerated) and recreated from the item's
marker index positions with the resolved colour and visibility (none created
when the positions are absent), and exactly when the mode is not MarkerChange
the line artifact is additionally removed (tolerating absence) and replaced by
a line with the resolved colour, visibility, style and width. -/
theorem C3_geometry_mode_actions (mode : Mode) (hm : mode ∈ geometryModes)
    (d : ItemData) (p : GxProps)
    (hk : d.kind = Kind.FlightTrack ∨ d.kind = Kind.Trajectory) :
    ((Effect.removeMarkers ∈ processItem mode d p)
        ↔ d.hasMarkerInstance = true)
    ∧ (∀ idx, d.timeMarkerIndexes = some idx →
        Effect.createMarkers idx p.colour p.visible ∈ processItem mode d p)
    ∧ (d.timeMarkerIndexes = none →
        ∀ idx c v, Effect.createMarkers idx c v ∉ processItem mode d p)
    ∧ ((Effect.removeLine ∈ processItem mode d p)
        ↔ (mode ≠ Mode.MARKER_CHANGE ∧ d.hasLineInstance = true))
    ∧ ((Effect.createLine p.colour p.visible p.linestyle p.linewidth
          ∈ processItem mode d p)
        ↔ mode ≠ Mode.MARKER_CHANGE) := by
  have hm4 : mode = Mode.FLIGHT_TRACK_ADDED ∨ mode = Mode.TRAJECTORY_DIR_ADDED
      ∨ mode = Mode.MARKER_CHANGE ∨ mode = Mode.DRAW_EVERYTHING := by
    simpa [geometryModes] using hm
  rcases hm4 with rfl | rfl | rfl | rfl <;>
    rcases hk with hk | hk <;>
      cases hL : d.hasLineInstance <;>
        cases hM : d.hasMarkerInstance <;>
          cases hT : d.timeMarkerIndexes <;>
            simp [processItem, hk, hL, hM, hT]

/-- Witness for the amended claim C3 at mode MARKER_CHANGE and item c3Item. -/
theorem C3_geometry_mode_actions_witness :
    ((Effect.removeMarkers ∈ processItem Mode.MARKER_CHANGE c3Item c3Props)
        ↔ c3Item.hasMarkerInstance = true)
    ∧ (∀ idx, c3Item.timeMarkerIndexes = some idx →
        Effect.createMarkers idx c3Props.colour c3Props.visible
          ∈ processItem Mode.MARKER_CHANGE c3Item c3Props)
    ∧ (c3Item.timeMarkerIndexes = none →
        ∀ idx c v, Effect.createMarkers idx c v
          ∉ processItem Mode.MARKER_CHANGE c3Item c3Props)
    ∧ ((Effect.removeLine ∈ processItem Mode.MARKER_CHANGE c3Item c3Props)
        ↔ (Mode.MARKER_CHANGE ≠ Mode.MARKER_CHANGE
            ∧ c3Item.hasLineInstance = true))
    ∧ ((Effect.createLine c3Props.colour c3Props.visible c3Props.linestyle
          c3Props.linewidth ∈ processItem Mode.MARKER_CHANGE c3Item c3Props)
        ↔ Mode.MARKER_CHANGE ≠ Mode.MARKER_CHANGE) :=
  C3_geometry_mode_actions Mode.MARKER_CHANGE (by decide) c3Item c3Props
    (by decide)

/-- Claim C10 (confirmed): when no trajectory item tree is attached,
update_trajectory_items performs no drawing-surface operation at all in any
mode and for any start item: it returns the empty operation list, issuing in
particular no artifact creation, update or removal and no canvas redraw; by
contrast, with a tree attached the very same call issues operations. -/
theorem C10_no_tree_no_effects :
    (∀ start mode, update_trajectory_items none start mode = Except.ok [])
    ∧ update_trajectory_items (some soloTree) none Mode.DRAW_EVERYTHING
        ≠ Except.ok [] := by
  constructor
  · intro start mode
    rfl
  · simp [update_trajectory_items, traverseLoop, soloTree, plainItem,
      upwardPass, initProps, resolveItem, isLagrantoMapItem, TItem.kindOf,
      pickProp, processItem]

/-- Claim C4 (confirmed): the graticule spacing selected for an axis extent is
the smallest entry of the ascending candidate table that is strictly greater
than extent / 11 (the same selection runs independently for the longitude and
the latitude extent); in particular a 55 degree extent selects 10 and a
2 degree extent selects 0.25.  When no candidate qualifies nothing is selected
(the Python code raises an IndexError). -/
theorem C4_spacing_selection :
    (∀ q s, selectSpacing q = some s →
      s ∈ spacingValues ∧ q / 11 < s
        ∧ ∀ r ∈ spacingValues, q / 11 < r → s ≤ r)
    ∧ selectSpacing 55 = some 10 ∧ selectSpacing 2 = some (25/100) := by
  refine ⟨?_, ?_, ?_⟩
  · intro q s h
    have hl : spacingValues.Pairwise (· ≤ ·) := by
      norm_num [spacingValues, List.pairwise_cons]
    obtain ⟨hmem, hps, hmin⟩ := head_filter_min hl h
    refine ⟨hmem, by simpa using hps, ?_⟩
    intro r hr hqr
    exact hmin r hr (by simpa using hqr)
  · norm_num [selectSpacing, spacingValues, List.filter]
  · norm_num [selectSpacing, spacingValues, List.filter]

/-- Witness for claim C4 at the 55 degree extent. -/
theorem C4_spacing_selection_witness :
    (10 : ℚ) ∈ spacingValues ∧ (55 : ℚ) / 11 < 10 :=
  (fun h => ⟨h.1, h.2.1⟩)
    (C4_spacing_selection.1 55 10
      (by norm_num [selectSpacing, spacingValues, List.filter]))

/-- The quantities _draw_auto_graticule reads in its stere / lcc branch: the
projection parameters x_0, y_0 (projection coordinates of the projection
centre) and lat_0 (centre latitude), the projection coordinates of the upper
right corner, and the longitudes / latitudes of the four corners plus the
latitudes of the midpoints of the upper and lower boundary (obtained from the
inverse projection, which is external).  Basemap places the lower left corner
of the visible planar extent at the origin (see the docstring of
update_with_coordinate_change), so the visible planar extent is
[0, urcrnrx] x [0, urcrnry]. -/
structure StereInput where
  x_0 : ℚ
  y_0 : ℚ
  urcrnrx : ℚ
  urcrnry : ℚ
  lat_0 : ℚ
  upperLeftCornerLon : ℚ
  upperLeftCornerLat : ℚ
  lowerRightCornerLon : ℚ
  lowerRightCornerLat : ℚ
  middleUpperBoundaryLat : ℚ
  middleLowerBoundaryLat : ℚ
  llcrnrlon : ℚ
  llcrnrlat : ℚ
  urcrnrlon : ℚ
  urcrnrlat : ℚ
  deriving DecidableEq, Repr

/-- The contains-centre test of _draw_auto_graticule: the code compares the
centre coordinates only against the upper right corner, with strict
less-than; no lower bound is checked. -/
def contains_centre (g : StereInput) : Bool :=
  decide (g.x_0 < g.urcrnrx) && decide (g.y_0 < g.urcrnry)

/-- mapLonStart of the stere / lcc branch. -/
def stereMapLonStart (g : StereInput) : ℚ :=
  if contains_centre g then -180
  else min g.upperLeftCornerLon
    (min g.llcrnrlon (min g.urcrnrlon g.lowerRightCornerLon))

/-- mapLonStop of the stere / lcc branch. -/
def stereMapLonStop (g : StereInput) : ℚ :=
  if contains_centre g then 180
  else max g.upperLeftCornerLon
    (max g.llcrnrlon (max g.urcrnrlon g.lowerRightCornerLon))

/-- The minimum over the six candidate latitudes (four corners and the two
boundary midpoints). -/
def stereMapLatStartBase (g : StereInput) : ℚ :=
  min g.middleLowerBoundaryLat (min g.lowerRightCornerLat (min g.llcrnrlat
    (min g.middleUpperBoundaryLat (min g.upperLeftCornerLat g.urcrnrlat))))

/-- The maximum over the six candidate latitudes. -/
def stereMapLatStopBase (g : StereInput) : ℚ :=
  max g.middleLowerBoundaryLat (max g.lowerRightCornerLat (max g.llcrnrlat
    (max g.middleUpperBoundaryLat (max g.upperLeftCornerLat g.urcrnrlat))))

/-- mapLatStart of the stere / lcc branch: when the contains-centre test
succeeds, the centre latitude is additionally taken into the minimum. -/
def stereMapLatStart (g : StereInput) : ℚ :=
  if contains_centre g then min (stereMapLatStartBase g) g.lat_0
  else stereMapLatStartBase g

/-- mapLatStop of the stere / lcc branch. -/
def stereMapLatStop (g : StereInput) : ℚ :=
  if contains_centre g then max (stereMapLatStopBase g) g.lat_0
  else stereMapLatStopBase g

/-- Formalisation of the claim C5 sentence (the words of the spec, kept for
comparison with the code): the projection centre point lies within the visible
planar extent, whose lower left corner basemap places at the origin. -/
def specCentreWithinExtent (g : StereInput) : Prop :=
  0 ≤ g.x_0 ∧ g.x_0 ≤ g.urcrnrx ∧ 0 ≤ g.y_0 ∧ g.y_0 ≤ g.urcrnry

/-- Claim C5 as stated is false on the code: for a centre left of the visible
extent (x_0 negative, so outside [0, urcrnrx] x [0, urcrnry]) the engine still
spans the full longitude circle, because the code only compares the centre
against the upper right corner and never checks a lower bound. -/
theorem C5_counterexample :
    stereMapLonStart
        { x_0 := -1, y_0 := 1, urcrnrx := 10, urcrnry := 10, lat_0 := 50,
          upperLeftCornerLon := 0, upperLeftCornerLat := 0,
          lowerRightCornerLon := 0, lowerRightCornerLat := 0,
          middleUpperBoundaryLat := 0, middleLowerBoundaryLat := 0,
          llcrnrlon := 0, llcrnrlat := 0, urcrnrlon := 0, urcrnrlat := 0 }
      = -180
    ∧ stereMapLonStop
        { x_0 := -1, y_0 := 1, urcrnrx := 10, urcrnry := 10, lat_0 := 50,
          upperLeftCornerLon := 0, upperLeftCornerLat := 0,
          lowerRightCornerLon := 0, lowerRightCornerLat := 0,
          middleUpperBoundaryLat := 0, middleLowerBoundaryLat := 0,
          llcrnrlon := 0, llcrnrlat := 0, urcrnrlon := 0, urcrnrlat := 0 }
      = 180
    ∧ ¬ specCentreWithinExtent
        { x_0 := -1, y_0 := 1, urcrnrx := 10, urcrnry := 10, lat_0 := 50,
          upperLeftCornerLon := 0, upperLeftCornerLat := 0,
          lowerRightCornerLon := 0, lowerRightCornerLat := 0,
          middleUpperBoundaryLat := 0, middleLowerBoundaryLat := 0,
          llcrnrlon := 0, llcrnrlat := 0, urcrnrlon := 0, urcrnrlat := 0 } := by
  refine ⟨?_, ?_, ?_⟩
  · norm_num [stereMapLonStart, contains_centre]
  · norm_num [stereMapLonStop, contains_centre]
  · norm_num [specCentreWithinExtent]

/-- Claim C5 (amended): in the stere / lcc branch the engine spans longitudes
over the full circle (-180..180) if and only if the centre planar coordinates
are strictly below the upper right corner bounds (x_0 strictly below urcrnrx
and y_0 strictly below urcrnry; the code checks no lower bound), and exactly in
that case the candidate latitude set additionally includes the centre latitude,
so that the latitude start / stop bounds are extended to include it; otherwise
the longitude span is the min / max over the four corner longitudes and the
latitude bounds are the min / max over the six candidate latitudes alone. -/
theorem C5_stere_bounds (g : StereInput) :
    (g.x_0 < g.urcrnrx ∧ g.y_0 < g.urcrnry →
      stereMapLonStart g = -180 ∧ stereMapLonStop g = 180
      ∧ stereMapLatStart g ≤ g.lat_0 ∧ g.lat_0 ≤ stereMapLatStop g
      ∧ stereMapLatStart g ≤ stereMapLatStartBase g
      ∧ stereMapLatStopBase g ≤ stereMapLatStop g)
    ∧ (¬(g.x_0 < g.urcrnrx ∧ g.y_0 < g.urcrnry) →
      stereMapLonStart g
        = min g.upperLeftCornerLon
            (min g.llcrnrlon (min g.urcrnrlon g.lowerRightCornerLon))
      ∧ stereMapLonStop g
        = max g.upperLeftCornerLon
            (max g.llcrnrlon (max g.urcrnrlon g.lowerRightCornerLon))
      ∧ stereMapLatStart g = stereMapLatStartBase g
      ∧ stereMapLatStop g = stereMapLatStopBase g) := by
  constructor
  · intro h
    have hc : contains_centre g = true := by
      simp [contains_centre, h.1, h.2]
    refine ⟨?_, ?_, ?_, ?_, ?_, ?_⟩ <;>
      simp [stereMapLonStart, stereMapLonStop, stereMapLatStart,
        stereMapLatStop, hc, min_le_right, le_max_right, min_le_left,
        le_max_left]
  · intro h
    have hc : contains_centre g = false := by
      rcases not_and_or.mp h with h1 | h1 <;> simp [contains_centre, h1]
    refine ⟨?_, ?_, ?_, ?_⟩ <;>
      simp [stereMapLonStart, stereMapLonStop, stereMapLatStart,
        stereMapLatStop, hc]

/-- Witness for the amended claim C5 at a concrete input whose centre passes
the contains-centre test. -/
theorem C5_stere_bounds_witness :
    stereMapLonStart
        { x_0 := 1, y_0 := 1, urcrnrx := 10, urcrnry := 10, lat_0 := 50,
          upperLeftCornerLon := 0, upperLeftCornerLat := 0,
          lowerRightCornerLon := 0, lowerRightCornerLat := 0,
          middleUpperBoundaryLat := 0, middleLowerBoundaryLat := 0,
          llcrnrlon := 0, llcrnrlat := 0, urcrnrlon := 0, urcrnrlat := 0 }
      = -180
    ∧ stereMapLonStop
        { x_0 := 1, y_0 := 1, urcrnrx := 10, urcrnry := 10, lat_0 := 50,
          upperLeftCornerLon := 0, upperLeftCornerLat := 0,
          lowerRightCornerLon := 0, lowerRightCornerLat := 0,
          middleUpperBoundaryLat := 0, middleLowerBoundaryLat := 0,
          llcrnrlon := 0, llcrnrlat := 0, urcrnrlon := 0, urcrnrlat := 0 }
      = 180
    ∧ stereMapLatStart
        { x_0 := 1, y_0 := 1, urcrnrx := 10, urcrnry := 10, lat_0 := 50,
          upperLeftCornerLon := 0, upperLeftCornerLat := 0,
          lowerRightCornerLon := 0, lowerRightCornerLat := 0,
          middleUpperBoundaryLat := 0, middleLowerBoundaryLat := 0,
          llcrnrlon := 0, llcrnrlat := 0, urcrnrlon := 0, urcrnrlat := 0 }
      ≤ 50
    ∧ (50 : ℚ)
      ≤ stereMapLatStop
        { x_0 := 1, y_0 := 1, urcrnrx := 10, urcrnry := 10, lat_0 := 50,
          upperLeftCornerLon := 0, upperLeftCornerLat := 0,
          lowerRightCornerLon := 0, lowerRightCornerLat := 0,
          middleUpperBoundaryLat := 0, middleLowerBoundaryLat := 0,
          llcrnrlon := 0, llcrnrlat := 0, urcrnrlon := 0, urcrnrlat := 0 } :=
  (fun h => ⟨h.1, h.2.1, h.2.2.1, h.2.2.2.1⟩)
    ((C5_stere_bounds _).1 (by norm_num))

/-- Python int() applied to a rational: truncation towards zero. -/
def pyTrunc (q : ℚ) : ℤ :=
  if 0 ≤ q then ⌊q⌋ else ⌈q⌉

/-- The point-count computation of gcpoints2 and gcpoints_path:
int((dist + 0.5 * 1000. * del_s) / (1000. * del_s)).  A zero denominator makes
Python raise ZeroDivisionError, modelled as none. -/
def npointsCalc (dist del_s : ℚ) : Option ℤ :=
  if (1000 : ℚ) * del_s = 0 then none
  else some (pyTrunc ((dist + 0.5 * 1000 * del_s) / (1000 * del_s)))

/-- MapCanvas.gcpoints2.  The external collaborators are passed as functions:
geodDist models the dist component returned by gc.inv (the azimuths are never
used), npts models gc.npts (the list of intermediate points the geodesic
solver produces for a requested count) and fwd models self.__call__, the
forward projection applied pointwise when map_coords is set.  The result
appends the verbatim start point, the intermediate points and the verbatim end
point, splitting them into the lons and lats lists the Python code builds. -/
def gcpoints2 (fwd : ℚ × ℚ → ℚ × ℚ) (geodDist : ℚ → ℚ → ℚ → ℚ → ℚ)
    (npts : ℚ → ℚ → ℚ → ℚ → ℤ → List (ℚ × ℚ))
    (lon1 lat1 lon2 lat2 del_s : ℚ) (map_coords : Bool) :
    Option (List ℚ × List ℚ) :=
  match npointsCalc (geodDist lon1 lat1 lon2 lat2) del_s with
  | none => none
  | some npoints =>
      let points :=
        (lon1, lat1) :: npts lon1 lat1 lon2 lat2 npoints ++ [(lon2, lat2)]
      let projected := if map_coords then points.map fwd else points
      some (projected.map Prod.fst, projected.map Prod.snd)

/-- Identity projection used for concrete instantiations. -/
def fwd0 : ℚ × ℚ → ℚ × ℚ := fun p => p

/-- A geodesic solver distance that is constantly 7 (concrete instantiation). -/
def geodDist7 : ℚ → ℚ → ℚ → ℚ → ℚ := fun _ _ _ _ => 7

/-- A geodesic solver distance that is constantly 0 (concrete instantiation). -/
def geodDistZero : ℚ → ℚ → ℚ → ℚ → ℚ := fun _ _ _ _ => 0

/-- An intermediate-point solver producing one fixed point. -/
def nptsOne : ℚ → ℚ → ℚ → ℚ → ℤ → List (ℚ × ℚ) := fun _ _ _ _ _ => [(9, 9)]

/-- An intermediate-point solver producing no points. -/
def nptsEmpty : ℚ → ℚ → ℚ → ℚ → ℤ → List (ℚ × ℚ) := fun _ _ _ _ _ => []

/-- Claim C6 as stated is false on the code: for the spacing del_s = 0 the
point-count division divides by zero (Python raises ZeroDivisionError), so no
point sequence at all is returned, in particular none starting and ending with
the given endpoints. -/
theorem C6_counterexample :
    gcpoints2 fwd0 geodDist7 nptsOne 1 2 3 4 0 false = none := by
  norm_num [gcpoints2, npointsCalc, geodDist7]

/-- Claim C6 (amended): for every pair of endpoints and every spacing
del_s other than 0 (a zero spacing makes the point-count division divide by
zero), the discretizer returns a sequence whose first element is exactly the
given start point and whose last element is exactly the given end point,
whatever the geodesic solver returns for the intermediate points. -/
theorem C6_endpoints_exact (fwd : ℚ × ℚ → ℚ × ℚ)
    (geodDist : ℚ → ℚ → ℚ → ℚ → ℚ)
    (npts : ℚ → ℚ → ℚ → ℚ → ℤ → List (ℚ × ℚ))
    (lon1 lat1 lon2 lat2 del_s : ℚ) (h : del_s ≠ 0) :
    ∃ lons lats,
      gcpoints2 fwd geodDist npts lon1 lat1 lon2 lat2 del_s false
        = some (lons, lats)
      ∧ lons.head? = some lon1 ∧ lons.getLast? = some lon2
      ∧ lats.head? = some lat1 ∧ lats.getLast? = some lat2 := by
  have hz : ¬ ((1000 : ℚ) * del_s = 0) := by
    exact mul_ne_zero (by norm_num) h
  simp only [gcpoints2, npointsCalc, if_neg hz, Bool.false_eq_true, if_false]
  refine ⟨_, _, rfl, ?_, ?_, ?_, ?_⟩ <;>
    simp only [List.map_cons, List.map_append, List.map_nil] <;>
      first
        | rfl
        | rw [List.getLast?_concat]

/-- Witness for the amended claim C6 at concrete inputs. -/
theorem C6_endpoints_exact_witness :
    ∃ lons lats,
      gcpoints2 fwd0 geodDist7 nptsOne 1 2 3 4 1 false = some (lons, lats)
      ∧ lons.head? = some 1 ∧ lons.getLast? = some 3
      ∧ lats.head? = some 2 ∧ lats.getLast? = some 4 :=
  C6_endpoints_exact fwd0 geodDist7 nptsOne 1 2 3 4 1 (by norm_num)

/-- Claim C7 (confirmed): for a zero-distance segment and any positive
spacing, the point count int((dist + 0.5 * 1000 * del_s) / (1000 * del_s))
evaluates to 0 (the quotient is exactly one half), the solver is asked for no
intermediate points, and the result is exactly the two identical endpoints,
with no error and no division by zero. -/
theorem C7_zero_distance (fwd : ℚ × ℚ → ℚ × ℚ)
    (geodDist : ℚ → ℚ → ℚ → ℚ → ℚ)
    (npts : ℚ → ℚ → ℚ → ℚ → ℤ → List (ℚ × ℚ))
    (lon lat del_s : ℚ) (hpos : 0 < del_s)
    (hdist : geodDist lon lat lon lat = 0)
    (hnpts : npts lon lat lon lat 0 = []) :
    npointsCalc (geodDist lon lat lon lat) del_s = some 0
    ∧ gcpoints2 fwd geodDist npts lon lat lon lat del_s false
        = some ([lon, lon], [lat, lat]) := by
  have hz : ¬ ((1000 : ℚ) * del_s = 0) :=
    mul_ne_zero (by norm_num) (ne_of_gt hpos)
  have hhalf : (0 + 0.5 * 1000 * del_s) / (1000 * del_s) = (1 : ℚ) / 2 := by
    rw [zero_add]
    rw [div_eq_div_iff hz (by norm_num : (2 : ℚ) ≠ 0)]
    ring
  have h0 : npointsCalc (geodDist lon lat lon lat) del_s = some 0 := by
    rw [hdist, npointsCalc, if_neg hz, hhalf]
    have : pyTrunc ((1 : ℚ) / 2) = 0 := by
      rw [pyTrunc, if_pos (by norm_num)]
      rw [Int.floor_eq_zero_iff]
      constructor <;> norm_num
    rw [this]
  refine ⟨h0, ?_⟩
  rw [gcpoints2, h0]
  simp [hnpts]

/-- Witness for claim C7 at concrete inputs. -/
theorem C7_zero_distance_witness :
    npointsCalc (geodDistZero 1 2 1 2) 1 = some 0
    ∧ gcpoints2 fwd0 geodDistZero nptsEmpty 1 2 1 2 1 false
        = some ([1, 1], [2, 2]) :=
  C7_zero_distance fwd0 geodDistZero nptsEmpty 1 2 1 (by norm_num) rfl rfl

/-- Error cases of gcpoints_path: the failed asserts on the waypoint lists
(the InvalidInputError of the specification) and the zero division of the
point-count computation (ZeroDivisionError). -/
inductive PathError where
  | invalidInput
  | divByZero
  deriving DecidableEq, Repr

/-- The segment loop of gcpoints_path: starting from the current waypoint a,
for each following waypoint b in turn the geodesic distance and the point
count are computed, the intermediate points are requested from the solver and
appended, and then the waypoint b itself is appended, so every junction
waypoint is appended exactly once, namely by the segment that ends in it. -/
def gcSegs (geodDist : ℚ → ℚ → ℚ → ℚ → ℚ)
    (npts : ℚ → ℚ → ℚ → ℚ → ℤ → List (ℚ × ℚ)) (del_s : ℚ) :
    ℚ × ℚ → List (ℚ × ℚ) → Option (List (ℚ × ℚ))
  | _, [] => some []
  | a, b :: rest =>
      match npointsCalc (geodDist a.1 a.2 b.1 b.2) del_s with
      | none => none
      | some n =>
          match gcSegs geodDist npts del_s b rest with
          | none => none
          | some tail => some (npts a.1 a.2 b.1 b.2 n ++ b :: tail)

/-- MapCanvas.gcpoints_path: asserts that the two coordinate lists have equal
length and hold at least two waypoints, then discretizes each consecutive pair
and concatenates, starting from the verbatim first waypoint.  The Python index
loop over the two equal-length lists is modelled as a walk over the zipped
waypoint list, and the two result lists the Python code builds in parallel are
recovered as the component projections of the collected point list;
map_coords applies the forward projection pointwise as in gcpoints2. -/
def gcpoints_path (fwd : ℚ × ℚ → ℚ × ℚ) (geodDist : ℚ → ℚ → ℚ → ℚ → ℚ)
    (npts : ℚ → ℚ → ℚ → ℚ → ℤ → List (ℚ × ℚ))
    (lons lats : List ℚ) (del_s : ℚ) (map_coords : Bool) :
    Except PathError (List ℚ × List ℚ) :=
  if lons.length ≠ lats.length then Except.error PathError.invalidInput
  else if ¬ 1 < lons.length then Except.error PathError.invalidInput
  else
    match lons.zip lats with
    | [] => Except.error PathError.invalidInput
    | w0 :: ws =>
        match gcSegs geodDist npts del_s w0 ws with
        | none => Except.error PathError.divByZero
        | some tail =>
            let points := w0 :: tail
            let projected := if map_coords then points.map fwd else points
            Except.ok (projected.map Prod.fst, projected.map Prod.snd)

/-- With a nonzero spacing the segment loop always succeeds. -/
theorem gcSegs_isSome (geodDist : ℚ → ℚ → ℚ → ℚ → ℚ)
    (npts : ℚ → ℚ → ℚ → ℚ → ℤ → List (ℚ × ℚ)) (del_s : ℚ) (h : del_s ≠ 0)
    (ws : List (ℚ × ℚ)) : ∀ a, ∃ out, gcSegs geodDist npts del_s a ws = some out := by
  induction ws with
  | nil => exact fun a => ⟨[], rfl⟩
  | cons b rest ih =>
      intro a
      obtain ⟨tail, htail⟩ := ih b
      have hz : ¬ ((1000 : ℚ) * del_s = 0) := mul_ne_zero (by norm_num) h
      refine ⟨npts a.1 a.2 b.1 b.2
          (pyTrunc ((geodDist a.1 a.2 b.1 b.2 + 0.5 * 1000 * del_s)
            / (1000 * del_s))) ++ b :: tail, ?_⟩
      rw [gcSegs, npointsCalc, if_neg hz, htail]

/-- Claim C8 as stated is false on the code: the waypoint input
lons = [0, 1], lats = [0, 0] is valid (two waypoints, equal lengths), yet with
the spacing del_s = 0 the per-segment point-count division divides by zero
(Python raises ZeroDivisionError), so the call does not succeed.  The failure
is not the InvalidInputError case, so the error characterization itself is
unaffected. -/
theorem C8_counterexample :
    ([(0 : ℚ), 1].length = [(0 : ℚ), 0].length ∧ 1 < [(0 : ℚ), 1].length)
    ∧ gcpoints_path fwd0 geodDist7 nptsOne [0, 1] [0, 0] 0 false
        = Except.error PathError.divByZero := by
  refine ⟨by norm_num, ?_⟩
  norm_num [gcpoints_path, gcSegs, npointsCalc, geodDist7, List.zip]

/-- Claim C8 (amended): gcpoints_path fails with InvalidInputError exactly
when fewer than 2 waypoints are supplied or the two coordinate lists differ in
length; for every valid input and every spacing del_s other than 0 (a zero
spacing instead divides by zero) it succeeds, and the result for waypoints
w0 :: w1 :: rest (rest nonempty) is the per-pair discretization of (w0, w1)
followed by the result for w1 :: rest with its leading junction waypoint w1
dropped, so the shared junction between consecutive segments is never
duplicated. -/
theorem C8_path_segments (fwd : ℚ × ℚ → ℚ × ℚ)
    (geodDist : ℚ → ℚ → ℚ → ℚ → ℚ)
    (npts : ℚ → ℚ → ℚ → ℚ → ℤ → List (ℚ × ℚ)) (del_s : ℚ) (h : del_s ≠ 0) :
    (∀ (lons lats : List ℚ) (mc : Bool),
      (gcpoints_path fwd geodDist npts lons lats del_s mc
          = Except.error PathError.invalidInput)
        ↔ (lons.length ≠ lats.length ∨ lons.length ≤ 1))
    ∧ (∀ (lons lats : List ℚ) (mc : Bool), lons.length = lats.length →
        1 < lons.length →
        ∃ out, gcpoints_path fwd geodDist npts lons lats del_s mc
          = Except.ok out)
    ∧ (∀ (l0 t0 l1 t1 l2 t2 : ℚ) (lrest trest : List ℚ),
        lrest.length = trest.length →
        ∃ firstSeg restPts : List (ℚ × ℚ),
          gcpoints2 fwd geodDist npts l0 t0 l1 t1 del_s false
            = some (firstSeg.map Prod.fst, firstSeg.map Prod.snd)
          ∧ gcpoints_path fwd geodDist npts (l1 :: l2 :: lrest)
              (t1 :: t2 :: trest) del_s false
            = Except.ok (restPts.map Prod.fst, restPts.map Prod.snd)
          ∧ restPts.head? = some (l1, t1)
          ∧ gcpoints_path fwd geodDist npts (l0 :: l1 :: l2 :: lrest)
              (t0 :: t1 :: t2 :: trest) del_s false
            = Except.ok ((firstSeg ++ restPts.drop 1).map Prod.fst,
                (firstSeg ++ restPts.drop 1).map Prod.snd)) := by
  have hz : ¬ ((1000 : ℚ) * del_s = 0) := mul_ne_zero (by norm_num) h
  have hB : ∀ (lons lats : List ℚ) (mc : Bool), lons.length = lats.length →
      1 < lons.length →
      ∃ out, gcpoints_path fwd geodDist npts lons lats del_s mc
        = Except.ok out := by
    intro lons lats mc hlen hlt
    cases lons with
    | nil => simp at hlt
    | cons x xs =>
        cases lats with
        | nil => simp at hlen
        | cons y ys =>
            obtain ⟨tail, htail⟩ :=
              gcSegs_isSome geodDist npts del_s h (xs.zip ys) (x, y)
            refine ⟨((if mc then ((x, y) :: tail).map fwd
                else (x, y) :: tail).map Prod.fst,
              (if mc then ((x, y) :: tail).map fwd
                else (x, y) :: tail).map Prod.snd), ?_⟩
            rw [gcpoints_path, if_neg (fun hne => hne hlen),
              if_neg (fun hne => hne hlt)]
            simp only [List.zip_cons_cons]
            rw [htail]
  refine ⟨?_, hB, ?_⟩
  · intro lons lats mc
    constructor
    · intro herr
      by_contra hcon
      push_neg at hcon
      obtain ⟨h1, h2⟩ := hcon
      obtain ⟨out, hout⟩ := hB lons lats mc h1 (by omega)
      rw [hout] at herr
      exact absurd herr (by simp)
    · intro hcond
      by_cases h1 : lons.length = lats.length
      · have h2 : lons.length ≤ 1 := by
          rcases hcond with hc | hc
          · exact absurd h1 hc
          · exact hc
        rw [gcpoints_path, if_neg (fun hne => hne h1), if_pos (by omega)]
      · rw [gcpoints_path, if_pos h1]
  · intro l0 t0 l1 t1 l2 t2 lrest trest hlen
    obtain ⟨tailR, htailR⟩ :=
      gcSegs_isSome geodDist npts del_s h ((l2, t2) :: lrest.zip trest) (l1, t1)
    refine ⟨(l0, t0) ::
        npts l0 t0 l1 t1
          (pyTrunc ((geodDist l0 t0 l1 t1 + 0.5 * 1000 * del_s)
            / (1000 * del_s))) ++ [(l1, t1)],
      (l1, t1) :: tailR, ?_, ?_, rfl, ?_⟩
    · rw [gcpoints2, npointsCalc, if_neg hz]
      rfl
    · rw [gcpoints_path,
        if_neg (fun hne => hne (by simp [hlen])),
        if_neg (fun hne => hne (by simp))]
      simp only [List.zip_cons_cons]
      rw [htailR]
      rfl
    · rw [gcpoints_path,
        if_neg (fun hne => hne (by simp [hlen])),
        if_neg (fun hne => hne (by simp))]
      simp only [List.zip_cons_cons]
      rw [gcSegs, npointsCalc, if_neg hz, htailR]
      simp [List.append_assoc]

/-- Witness for the amended claim C8: a valid two-waypoint input with a
nonzero spacing succeeds. -/
theorem C8_path_segments_witness :
    ∃ out, gcpoints_path fwd0 geodDist7 nptsOne [0, 1] [0, 0] 1 false
      = Except.ok out :=
  (C8_path_segments fwd0 geodDist7 nptsOne 1 (by norm_num)).2.1 [0, 1] [0, 0]
    false (by norm_num) (by norm_num)

/-- The map-layer artifact handles and appearance settings of MapCanvas that
the per-layer visibility setters read and write.  Handles are opaque numbers:
every draw call allocates a fresh one from nextHandle (matplotlib returns new
artist objects each time), none means the layer currently has no artifact.
Colours are abstracted to numbers. -/
structure MapState where
  draw_graticule : Bool
  draw_coastlines : Bool
  fill_waterbodies : Bool
  fill_continents : Bool
  colour_water : Nat
  colour_land : Nat
  map_parallels : Option Nat
  map_meridians : Option Nat
  map_coastlines : Option Nat
  map_countries : Option Nat
  map_boundary : Option Nat
  map_continents : Option Nat
  nextHandle : Nat
  deriving DecidableEq, Repr

/-- The default bg_color argument of set_mapboundary_visible (the literal
colour string of the source, abstracted to a colour number). -/
def defaultBgColour : Nat := 99

/-- MapCanvas.set_graticule_visible: stores the flag; draws a new graticule
when visibility is requested and no graticule exists (both handle slots are
None); removes the lines and labels and nils both handles when invisibility is
requested and a graticule exists; otherwise only the flag assignment
happens. -/
def set_graticule_visible (visible : Bool) (s : MapState) : MapState :=
  let s1 := { s with draw_graticule := visible }
  if visible ∧ s1.map_parallels = none ∧ s1.map_meridians = none then
    { s1 with
      map_parallels := some s1.nextHandle
      map_meridians := some (s1.nextHandle + 1)
      nextHandle := s1.nextHandle + 2 }
  else if ¬visible ∧ s1.map_parallels.isSome ∧ s1.map_meridians.isSome then
    { s1 with
      map_parallels := none
      map_meridians := none }
  else s1

/-- MapCanvas.set_fillcontinents_visible: optionally stores new land and lake
colours, stores the flag, then draws the fill when it is requested and absent,
removes it when invisibility is requested and it is present, and removes and
redraws it (a fresh artifact) when visibility is requested while the fill is
already present, the colours-changed branch that runs even when no colour
argument was supplied. -/
def set_fillcontinents_visible (visible : Bool)
    (land_color lake_color : Option Nat) (s : MapState) : MapState :=
  let s1 := match land_color with
    | some c => { s with colour_land := c }
    | none => s
  let s2 := match lake_color with
    | some c => { s1 with colour_water := c }
    | none => s1
  let s3 := { s2 with fill_continents := visible }
  if visible ∧ s3.map_continents = none then
    { s3 with
      map_continents := some s3.nextHandle
      nextHandle := s3.nextHandle + 1 }
  else if ¬visible ∧ s3.map_continents.isSome then
    { s3 with map_continents := none }
  else if visible ∧ s3.map_continents.isSome then
    { s3 with
      map_continents := some s3.nextHandle
      nextHandle := s3.nextHandle + 1 }
  else s3

/-- MapCanvas.set_coastlines_visible: stores the flag; draws coastlines and
country borders when visibility is requested and both are absent; removes both
when invisibility is requested and both are present; otherwise only the flag
assignment happens. -/
def set_coastlines_visible (visible : Bool) (s : MapState) : MapState :=
  let s1 := { s with draw_coastlines := visible }
  if visible ∧ s1.map_coastlines = none ∧ s1.map_countries = none then
    { s1 with
      map_coastlines := some s1.nextHandle
      map_countries := some (s1.nextHandle + 1)
      nextHandle := s1.nextHandle + 2 }
  else if ¬visible ∧ s1.map_coastlines.isSome ∧ s1.map_countries.isSome then
    { s1 with
      map_coastlines := none
      map_countries := none }
  else s1

/-- MapCanvas.set_mapboundary_visible: unconditionally stores the flag and the
bg colour into the appearance settings; removes the boundary when invisibility
is requested and one exists; whenever visibility is requested it draws a fresh
boundary WITHOUT removing an existing one (the old handle is overwritten). -/
def set_mapboundary_visible (visible : Bool) (bg_color : Nat)
    (s : MapState) : MapState :=
  let s1 := { s with
    fill_waterbodies := visible
    colour_water := bg_color }
  if ¬visible ∧ s1.map_boundary.isSome then
    { s1 with map_boundary := none }
  else if visible then
    { s1 with
      map_boundary := some s1.nextHandle
      nextHandle := s1.nextHandle + 1 }
  else s1

/-- A state with a visible water boundary whose stored water colour differs
from the default bg colour. -/
def boundaryState : MapState :=
  { draw_graticule := false, draw_coastlines := false,
    fill_waterbodies := true, fill_continents := false, colour_water := 1,
    colour_land := 2, map_parallels := none, map_meridians := none,
    map_coastlines := none, map_countries := none, map_boundary := some 0,
    map_continents := none, nextHandle := 1 }

/-- A state with a visible graticule and nothing else. -/
def gratState : MapState :=
  { draw_graticule := true, draw_coastlines := false,
    fill_waterbodies := false, fill_continents := false, colour_water := 1,
    colour_land := 2, map_parallels := some 0, map_meridians := some 1,
    map_coastlines := none, map_countries := none, map_boundary := none,
    map_continents := none, nextHandle := 2 }

/-- A state with a shown continent fill and nothing else. -/
def contState : MapState :=
  { draw_graticule := false, draw_coastlines := false,
    fill_waterbodies := false, fill_continents := true, colour_water := 1,
    colour_land := 2, map_parallels := none, map_meridians := none,
    map_coastlines := none, map_countries := none, map_boundary := none,
    map_continents := some 0, nextHandle := 1 }

/-- Claim C9 as stated is false on the code, for two of the four toggles.
Invoking the boundary toggle with its current visibility state (visible, with
the default bg colour) is not a no-op: it overwrites the stored water colour
with the default bg colour and draws a fresh boundary artifact.  Invoking the
continent-fill toggle with its current visibility state (visible, no colour
arguments) is not a no-op either: the colours-changed branch runs anyway and
replaces the fill with a fresh artifact. -/
theorem C9_counterexample :
    set_mapboundary_visible boundaryState.fill_waterbodies defaultBgColour
        boundaryState ≠ boundaryState
    ∧ (set_mapboundary_visible boundaryState.fill_waterbodies defaultBgColour
        boundaryState).colour_water = defaultBgColour
    ∧ boundaryState.colour_water ≠ defaultBgColour
    ∧ set_fillcontinents_visible contState.fill_continents none none contState
        ≠ contState
    ∧ (set_fillcontinents_visible contState.fill_continents none none
        contState).map_continents ≠ contState.map_continents := by
  decide

/-- Claim C9 (amended): the graticule and coastline toggles are idempotent
(invoking them with the layer's current visibility state, flag and artifact
presence consistent, changes nothing); the continent-fill toggle invoked with
visible true while the fill is shown is NOT a no-op: it removes the fill and
redraws it as a freshly allocated artifact (the presence and, when no colour
argument is supplied, the stored colours are preserved, but the resulting
state always differs); the boundary toggle invoked with visible true is never
a no-op: it stores the given (or default) bg colour, draws a freshly
allocated boundary artifact, and always changes the state; and toggling any
of the four layers twice (off then on from a shown state, or on then off from
a hidden state) restores the original presence / absence of that layer's
artifact handles. -/
theorem C9_toggle_behaviour :
    (∀ s : MapState, s.draw_graticule = true →
      s.map_parallels.isSome = true → s.map_meridians.isSome = true →
      set_graticule_visible true s = s)
    ∧ (∀ s : MapState, s.draw_graticule = false →
      s.map_parallels = none → s.map_meridians = none →
      set_graticule_visible false s = s)
    ∧ (∀ s : MapState, s.draw_coastlines = true →
      s.map_coastlines.isSome = true → s.map_countries.isSome = true →
      set_coastlines_visible true s = s)
    ∧ (∀ s : MapState, s.draw_coastlines = false →
      s.map_coastlines = none → s.map_countries = none →
      set_coastlines_visible false s = s)
    ∧ (∀ s : MapState, s.map_continents.isSome = true →
      (set_fillcontinents_visible true none none s).map_continents
          = some s.nextHandle
      ∧ (set_fillcontinents_visible true none none s).nextHandle
          = s.nextHandle + 1
      ∧ (set_fillcontinents_visible true none none s).colour_land
          = s.colour_land
      ∧ (set_fillcontinents_visible true none none s).colour_water
          = s.colour_water
      ∧ set_fillcontinents_visible true none none s ≠ s)
    ∧ (∀ (s : MapState) (bg : Nat),
      (set_mapboundary_visible true bg s).colour_water = bg
      ∧ (set_mapboundary_visible true bg s).map_boundary = some s.nextHandle
      ∧ (set_mapboundary_visible true bg s).nextHandle = s.nextHandle + 1
      ∧ set_mapboundary_visible true bg s ≠ s)
    ∧ (∀ s : MapState,
      s.map_parallels.isSome = true → s.map_meridians.isSome = true →
      (set_graticule_visible true
        (set_graticule_visible false s)).map_parallels.isSome = true
      ∧ (set_graticule_visible true
          (set_graticule_visible false s)).map_meridians.isSome = true)
    ∧ (∀ s : MapState, s.map_parallels = none → s.map_meridians = none →
      (set_graticule_visible false
        (set_graticule_visible true s)).map_parallels = none
      ∧ (set_graticule_visible false
          (set_graticule_visible true s)).map_meridians = none)
    ∧ (∀ s : MapState,
      s.map_coastlines.isSome = true → s.map_countries.isSome = true →
      (set_coastlines_visible true
        (set_coastlines_visible false s)).map_coastlines.isSome = true
      ∧ (set_coastlines_visible true
          (set_coastlines_visible false s)).map_countries.isSome = true)
    ∧ (∀ s : MapState, s.map_coastlines = none → s.map_countries = none →
      (set_coastlines_visible false
        (set_coastlines_visible true s)).map_coastlines = none
      ∧ (set_coastlines_visible false
          (set_coastlines_visible true s)).map_countries = none)
    ∧ (∀ s : MapState, s.map_continents.isSome = true →
      (set_fillcontinents_visible true none none
        (set_fillcontinents_visible false none none s)).map_continents.isSome
        = true)
    ∧ (∀ s : MapState, s.map_continents = none →
      (set_fillcontinents_visible false none none
        (set_fillcontinents_visible true none none s)).map_continents = none)
    ∧ (∀ (s : MapState) (bg : Nat), s.map_boundary.isSome = true →
      (set_mapboundary_visible true bg
        (set_mapboundary_visible false bg s)).map_boundary.isSome = true)
    ∧ (∀ (s : MapState) (bg : Nat), s.map_boundary = none →
      (set_mapboundary_visible false bg
        (set_mapboundary_visible true bg s)).map_boundary = none) := by
  refine ⟨?_, ?_, ?_, ?_, ?_, ?_, ?_, ?_, ?_, ?_, ?_, ?_, ?_, ?_⟩
  · intro s h1 h2 h3
    rcases s with ⟨dg, dc, fw, fc, cw, cl, mp, mm, mco, mcn, mb, mct, nh⟩
    simp only at h1 h2 h3
    subst h1
    cases mp <;> cases mm <;> simp_all [set_graticule_visible]
  · intro s h1 h2 h3
    rcases s with ⟨dg, dc, fw, fc, cw, cl, mp, mm, mco, mcn, mb, mct, nh⟩
    simp only at h1 h2 h3
    subst h1
    subst h2
    subst h3
    simp [set_graticule_visible]
  · intro s h1 h2 h3
    rcases s with ⟨dg, dc, fw, fc, cw, cl, mp, mm, mco, mcn, mb, mct, nh⟩
    simp only at h1 h2 h3
    subst h1
    cases mco <;> cases mcn <;> simp_all [set_coastlines_visible]
  · intro s h1 h2 h3
    rcases s with ⟨dg, dc, fw, fc, cw, cl, mp, mm, mco, mcn, mb, mct, nh⟩
    simp only at h1 h2 h3
    subst h1
    subst h2
    subst h3
    simp [set_coastlines_visible]
  · intro s h1
    rcases s with ⟨dg, dc, fw, fc, cw, cl, mp, mm, mco, mcn, mb, mct, nh⟩
    simp only at h1
    cases mct with
    | none => simp at h1
    | some v =>
        refine ⟨?_, ?_, ?_, ?_, ?_⟩ <;>
          simp [set_fillcontinents_visible, MapState.mk.injEq]
  · intro s bg
    rcases s with ⟨dg, dc, fw, fc, cw, cl, mp, mm, mco, mcn, mb, mct, nh⟩
    refine ⟨?_, ?_, ?_, ?_⟩ <;>
      cases mb <;> simp [set_mapboundary_visible, MapState.mk.injEq]
  · intro s h1 h2
    rcases s with ⟨dg, dc, fw, fc, cw, cl, mp, mm, mco, mcn, mb, mct, nh⟩
    simp only at h1 h2
    cases mp <;> cases mm <;> simp_all [set_graticule_visible]
  · intro s h1 h2
    rcases s with ⟨dg, dc, fw, fc, cw, cl, mp, mm, mco, mcn, mb, mct, nh⟩
    simp only at h1 h2
    subst h1
    subst h2
    simp [set_graticule_visible]
  · intro s h1 h2
    rcases s with ⟨dg, dc, fw, fc, cw, cl, mp, mm, mco, mcn, mb, mct, nh⟩
    simp only at h1 h2
    cases mco <;> cases mcn <;> simp_all [set_coastlines_visible]
  · intro s h1 h2
    rcases s with ⟨dg, dc, fw, fc, cw, cl, mp, mm, mco, mcn, mb, mct, nh⟩
    simp only at h1 h2
    subst h1
    subst h2
    simp [set_coastlines_visible]
  · intro s h1
    rcases s with ⟨dg, dc, fw, fc, cw, cl, mp, mm, mco, mcn, mb, mct, nh⟩
    simp only at h1
    cases mct <;> simp_all [set_fillcontinents_visible]
  · intro s h1
    rcases s with ⟨dg, dc, fw, fc, cw, cl, mp, mm, mco, mcn, mb, mct, nh⟩
    simp only at h1
    subst h1
    simp [set_fillcontinents_visible]
  · intro s bg h1
    rcases s with ⟨dg, dc, fw, fc, cw, cl, mp, mm, mco, mcn, mb, mct, nh⟩
    simp only at h1
    cases mb <;> simp_all [set_mapboundary_visible]
  · intro s bg h1
    rcases s with ⟨dg, dc, fw, fc, cw, cl, mp, mm, mco, mcn, mb, mct, nh⟩
    simp only at h1
    subst h1
    simp [set_mapboundary_visible]

/-- Witness for the amended claim C9: graticule idempotence at a concrete
shown state, the boundary toggle storing the default colour, drawing a fresh
boundary and changing the state, and the continent-fill toggle replacing the
shown fill with a fresh artifact and changing the state. -/
theorem C9_toggle_behaviour_witness :
    set_graticule_visible true gratState = gratState
    ∧ (set_mapboundary_visible true defaultBgColour boundaryState).colour_water
        = defaultBgColour
    ∧ (set_mapboundary_visible true defaultBgColour boundaryState).map_boundary
        = some boundaryState.nextHandle
    ∧ set_mapboundary_visible true defaultBgColour boundaryState
        ≠ boundaryState
    ∧ (set_fillcontinents_visible true none none contState).map_continents
        = some contState.nextHandle
    ∧ set_fillcontinents_visible true none none contState ≠ contState :=
  ⟨C9_toggle_behaviour.1 gratState rfl rfl rfl,
    (C9_toggle_behaviour.2.2.2.2.2.1 boundaryState defaultBgColour).1,
    (C9_toggle_behaviour.2.2.2.2.2.1 boundaryState defaultBgColour).2.1,
    (C9_toggle_behaviour.2.2.2.2.2.1 boundaryState defaultBgColour).2.2.2,
    (C9_toggle_behaviour.2.2.2.2.1 contState rfl).1,
    (C9_toggle_behaviour.2.2.2.2.1 contState rfl).2.2.2.2⟩

end MSS
